import Mathlib

/-!
Verification of the RPC multiplexing core of the `pug_protocol` client SDK
(`pug_protocol/rpc/channel.py`, `pug_protocol/rpc/rpc.py`).

The embedding is a shallow one:

* A wire frame / message body is a Python `dict[str, Any]`, modelled as an
  association list `Dict` with first-key-wins lookup; `aset` mirrors Python
  dict assignment (update in place, else append), `dunion` mirrors the
  Python `d1 | d2` operator, and `mkDict` builds a dict literal.
* `asyncio.Future` is modelled by `FutureState` (pending / resolved /
  failed); `Future.set_result` and `Future.set_exception` raise
  `InvalidStateError` on a done future, as in asyncio.
* `BufferingBaseChannel` is modelled by `ChannelState`: `connected` is
  `is_connected`, `sendQueue` is `_send_queue` and `written` is the
  sequence of frames the background send loop has handed to `_send_impl`.
* Raising a Python exception is modelled by returning the exception value
  alongside the state that the mutations performed so far produced
  (`RPCState × Option RpcError`), so partial effects before a raise are
  kept, exactly as in Python.
* The RPC instance is modelled with no `request_handler` and no
  `new_stream_handler` (the constructor defaults), which is the
  configuration all the verified claims are about.
-/

namespace PugProtocol

/-- A JSON-compatible scalar value stored in a message dict. -/
inductive Value where
  | str : String → Value
  | int : Int → Value
  | bool : Bool → Value
  | null : Value
deriving DecidableEq, Repr

/-- Association list keyed by strings: the model of a Python `dict`. -/
abbrev AList (α : Type) := List (String × α)

/-- Python `d[k]` lookup (first binding wins; on well-formed dicts keys are
unique so this is exact). -/
def aget? {α : Type} : AList α → String → Option α
  | [], _ => none
  | p :: rest, k => if p.1 = k then some p.2 else aget? rest k

/-- Python `k in d`. -/
def acontains {α : Type} (d : AList α) (k : String) : Bool :=
  (aget? d k).isSome

/-- Python `d[k] = v`: update the existing binding in place, else append. -/
def aset {α : Type} : AList α → String → α → AList α
  | [], k, v => [(k, v)]
  | p :: rest, k, v => if p.1 = k then (k, v) :: rest else p :: aset rest k v

/-- Python `d.pop(k)` minus the raising behaviour: remove the binding. -/
def aremove {α : Type} : AList α → String → AList α
  | [], _ => []
  | p :: rest, k => if p.1 = k then aremove rest k else p :: aremove rest k

/-- A message dict. -/
abbrev Dict := AList Value

/-- Python `d1 | d2`: keys of `d1` in place, values of `d2` win, new keys
of `d2` appended in order. -/
def dunion (d1 d2 : Dict) : Dict :=
  d2.foldl (fun d p => aset d p.1 p.2) d1

/-- A Python dict literal / `dict(...)` constructor from a key-value list. -/
def mkDict (kvs : List (String × Value)) : Dict :=
  dunion [] kvs

/-- The Python exceptions the RPC core can raise. -/
inductive RpcError where
  | keyError
  | invalidStateError
  | valueError (msg : String)
  | runtimeError (msg : String)
  | permissionError (msg : String)
  | exceptionError (msg : String)
deriving DecidableEq, Repr

/-- State of an `asyncio.Future` used as a PendingRequest result slot. -/
inductive FutureState where
  | pending
  | resolved (v : Dict)
  | failed (e : RpcError)
deriving DecidableEq, Repr

/-- State of a `BufferingBaseChannel`: `connected` models `is_connected`,
`sendQueue` models `_send_queue`, `written` is the sequence of frames the
send loop has already passed to `_send_impl` (the wire order). -/
structure ChannelState where
  connected : Bool
  sendQueue : List Dict
  written : List Dict
deriving DecidableEq, Repr

/-- `BufferingBaseChannel.send`: raise `RuntimeError` when not connected,
else `put_nowait` on the unbounded queue; no write is performed here. -/
def channel_send (ch : ChannelState) (m : Dict) : Except RpcError ChannelState :=
  if ch.connected then Except.ok { ch with sendQueue := ch.sendQueue ++ [m] }
  else Except.error (RpcError.runtimeError "not connected")

/-- `Channel.close` / `BufferingBaseChannel.close`: tears the transport
down (the exit stack cancels the send loop and the websocket context sets
the socket to `None`, so `is_connected` becomes false). -/
def channel_close (ch : ChannelState) : ChannelState :=
  { ch with connected := false }

/-- One scheduling event on a channel: a caller invoking `send`, or the
background send loop completing one `get`/`_send_impl` iteration. -/
inductive ChanEvent where
  | clientSend (m : Dict)
  | loopStep
deriving DecidableEq, Repr

/-- Small-step semantics of a channel under one event.  A `loopStep` on an
empty queue is the send loop blocked in `await self._send_queue.get()`:
nothing happens. -/
def chan_event_step (ch : ChannelState) : ChanEvent → Except RpcError ChannelState
  | ChanEvent.clientSend m => channel_send ch m
  | ChanEvent.loopStep =>
    match ch.sendQueue with
    | [] => Except.ok ch
    | m :: rest => Except.ok { ch with sendQueue := rest, written := ch.written ++ [m] }

/-- Run a sequence of interleaved channel events. -/
def chan_run (ch : ChannelState) : List ChanEvent → Except RpcError ChannelState
  | [] => Except.ok ch
  | e :: es =>
    match chan_event_step ch e with
    | Except.ok ch2 => chan_run ch2 es
    | Except.error err => Except.error err

/-- The frames passed to `send` in an event sequence, in call order. -/
def sentFrames : List ChanEvent → List Dict
  | [] => []
  | ChanEvent.clientSend m :: es => m :: sentFrames es
  | ChanEvent.loopStep :: es => sentFrames es

end PugProtocol

namespace PugProtocol

/-- State of one `RPC` instance (with no request handler and no new-stream
handler) together with its owned channel. `nextUid` drives the fresh-uid
generator standing in for `uuid.uuid4()`. -/
structure RPCState where
  channel : ChannelState
  futureByUid : AList FutureState
  incomingByStreamUid : AList (List Dict)
  nextUid : Nat
deriving DecidableEq, Repr

/-- Fresh correlation id allocator standing in for `str(uuid.uuid4())`. -/
def freshUid (n : Nat) : String :=
  "uid-" ++ toString n

/-- `RPC._send_message`: log (ignored here) and `channel.send`. -/
def send_message (st : RPCState) (m : Dict) : Except RpcError RPCState :=
  match channel_send st.channel m with
  | Except.ok ch => Except.ok { st with channel := ch }
  | Except.error e => Except.error e

/-- `RPC._normalize_kind_and_fields`: raise `ValueError` when `fields`
carries a `kind` different from the argument, else return
`fields | {"kind": kind}` (or `{"kind": kind}` when fields is `None`). -/
def normalize_kind_and_fields (kind : String) (fields : Option Dict) : Except RpcError Dict :=
  match fields with
  | none => Except.ok [("kind", Value.str kind)]
  | some f =>
    match aget? f "kind" with
    | some v =>
      if v = Value.str kind then Except.ok (dunion f [("kind", Value.str kind)])
      else Except.error (RpcError.valueError "Conflicting kind in fields")
    | none => Except.ok (dunion f [("kind", Value.str kind)])

/-- `RPC.send_response`. -/
def send_response (st : RPCState) (uid kind : String) (fields : Option Dict) :
    Except RpcError RPCState :=
  match normalize_kind_and_fields kind fields with
  | Except.ok nf =>
    send_message st (dunion [("type", Value.str "response"), ("uid", Value.str uid)] nf)
  | Except.error e => Except.error e

/-- `RPC.send_error_response`. -/
def send_error_response (st : RPCState) (uid error : String) : Except RpcError RPCState :=
  send_response st uid "error" (some [("error", Value.str error)])

/-- `RPC.send_request_message`. -/
def send_request_message (st : RPCState) (uid kind : String) (fields : Option Dict) :
    Except RpcError RPCState :=
  match normalize_kind_and_fields kind fields with
  | Except.ok nf =>
    send_message st (dunion [("type", Value.str "request"), ("uid", Value.str uid)] nf)
  | Except.error e => Except.error e

/-- `RPC.send_stream_message`. -/
def send_stream_message (st : RPCState) (uid kind : String) (fields : Option Dict) :
    Except RpcError RPCState :=
  match normalize_kind_and_fields kind fields with
  | Except.ok nf =>
    send_message st (dunion [("type", Value.str "stream"), ("uid", Value.str uid)] nf)
  | Except.error e => Except.error e

/-- `RPC.send_stream_error`: `fields = (fields or {}) | ({"error": error}
if error else {})` — note Python truthiness: `None` and `""` both skip the
error key — then a stream message of kind `"error"`. -/
def send_stream_error (st : RPCState) (uid : String) (error : Option String)
    (fields : Option Dict) : Except RpcError RPCState :=
  let f0 : Dict := match fields with | none => [] | some f => f
  let errPart : Dict := match error with
    | some e => if e = "" then [] else [("error", Value.str e)]
    | none => []
  send_stream_message st uid "error" (some (dunion f0 errPart))

/-- `RPC.send_toplevel_error`. -/
def send_toplevel_error (st : RPCState) (error : String) : Except RpcError RPCState :=
  send_message st (mkDict [("type", Value.str "error"), ("error", Value.str error)])

/-- `RPC.fail`: log, send a top-level error frame, close the channel. -/
def rpc_fail (st : RPCState) (error : String) : RPCState × Option RpcError :=
  match send_toplevel_error st error with
  | Except.ok st2 => ({ st2 with channel := channel_close st2.channel }, none)
  | Except.error e => (st, some e)

/-- `RPC.on_response`: an error-kind response with a string `error` field
fails the matching future (`PermissionError` for the literal
"session is not authenticated", generic `Exception` otherwise); any other
kind resolves it to `dict(kind=kind, **fields)`; an error-kind response
without a string `error` field triggers `RPC.fail`.  The table lookup
`self._future_by_uid[uid]` raises `KeyError` for an unknown uid, and
resolving an already-done future raises `InvalidStateError`.  Note that
the uid is never removed from `_future_by_uid` here. -/
def on_response (st : RPCState) (uid kind : String) (fields : Dict) :
    RPCState × Option RpcError :=
  if kind = "error" then
    match aget? fields "error" with
    | some (Value.str error) =>
      let exc := if error = "session is not authenticated"
        then RpcError.permissionError error else RpcError.exceptionError error
      match aget? st.futureByUid uid with
      | none => (st, some RpcError.keyError)
      | some FutureState.pending =>
        ({ st with futureByUid := aset st.futureByUid uid (FutureState.failed exc) }, none)
      | some _ => (st, some RpcError.invalidStateError)
    | _ => rpc_fail st ("Unexpected response message kind=" ++ kind)
  else
    match aget? st.futureByUid uid with
    | none => (st, some RpcError.keyError)
    | some FutureState.pending =>
      let fb := aset st.futureByUid uid (FutureState.resolved (("kind", Value.str kind) :: fields))
      ({ st with futureByUid := fb }, none)
    | some _ => (st, some RpcError.invalidStateError)

/-- `RPC.on_new_stream` with no `new_stream_handler` configured: reply
with a stream-level error frame. -/
def on_new_stream (st : RPCState) (uid : String) : RPCState × Option RpcError :=
  match send_stream_error st uid (some "Incoming streams are not supported") none with
  | Except.ok st2 => (st2, none)
  | Except.error e => (st, some e)

/-- `RPC.on_stream_message`: deliver to the registered queue if present,
else treat as a new unsolicited stream. -/
def on_stream_message (st : RPCState) (uid kind : String) (fields : Dict) :
    RPCState × Option RpcError :=
  match aget? st.incomingByStreamUid uid with
  | some q =>
    let tbl := aset st.incomingByStreamUid uid (q ++ [("kind", Value.str kind) :: fields])
    ({ st with incomingByStreamUid := tbl }, none)
  | none => on_new_stream st uid

/-- `RPC.on_request` with no `request_handler` configured: reply with an
error response. -/
def on_request (st : RPCState) (uid : String) : RPCState × Option RpcError :=
  match send_error_response st uid "Incoming requests are not supported" with
  | Except.ok st2 => (st2, none)
  | Except.error e => (st, some e)

/-- `RPC.on_error`: log the received top-level error and close the channel. -/
def on_error (st : RPCState) : RPCState × Option RpcError :=
  ({ st with channel := channel_close st.channel }, none)

/-- The `**fields` capture of the `match message` patterns in
`RPC._on_message`: every key except the explicitly matched
`type` / `uid` / `kind`. -/
def restFields (m : Dict) : Dict :=
  m.filter (fun p => decide (p.1 ≠ "type" ∧ p.1 ≠ "uid" ∧ p.1 ≠ "kind"))

/-- The trailing cases of `RPC._on_message`: top-level `error` frame,
top-level `debug` frame (log only), and the catch-all `RPC.fail`. -/
def on_message_fallback (st : RPCState) (m : Dict) : RPCState × Option RpcError :=
  if aget? m "type" = some (Value.str "error") then
    match aget? m "error" with
    | some (Value.str _) => on_error st
    | _ => rpc_fail st "Unexpected message format"
  else if aget? m "type" = some (Value.str "debug") then
    match aget? m "message" with
    | some (Value.str _) => (st, none)
    | _ => rpc_fail st "Unexpected message format"
  else rpc_fail st "Unexpected message format"

/-- `RPC._on_message`: dispatch one inbound frame by `type`, extracting
the string `uid` and `kind` where the pattern requires them. -/
def on_message (st : RPCState) (m : Dict) : RPCState × Option RpcError :=
  match aget? m "type", aget? m "uid", aget? m "kind" with
  | some (Value.str t), some (Value.str uid), some (Value.str kind) =>
    if t = "request" then on_request st uid
    else if t = "response" then on_response st uid kind (restFields m)
    else if t = "stream" then on_stream_message st uid kind (restFields m)
    else on_message_fallback st m
  | _, _, _ => on_message_fallback st m

/-- The body of `RPC._recv_loop` run over a list of inbound frames:
dispatch frames in order; when a dispatch raises, the exception is caught
by the loop's `except Exception` clause (logged, not re-raised) and the
loop exits.  Returns the final state and the frames that were actually
dispatched. -/
def recv_loop_run (st : RPCState) : List Dict → RPCState × List Dict
  | [] => (st, [])
  | m :: rest =>
    match on_message st m with
    | (st2, none) =>
      let r := recv_loop_run st2 rest
      (r.1, m :: r.2)
    | (st2, some _) => (st2, [m])

/-- How a background loop's body terminated. -/
inductive LoopExit where
  | finished
  | cancelled
  | failure (e : RpcError)
deriving DecidableEq, Repr

/-- What the owning scope observes from a background loop task: whether
the loop's exception handler logged, and which exception (if any) escapes
the task. -/
structure LoopResult where
  logged : Bool
  reraised : Option RpcError
deriving DecidableEq, Repr

/-- Exception discipline of `BufferingBaseChannel.send_loop`:
`except CancelledError: return`; `except Exception: log; raise`. -/
def send_loop_on_exit : LoopExit → LoopResult
  | LoopExit.finished => { logged := false, reraised := none }
  | LoopExit.cancelled => { logged := false, reraised := none }
  | LoopExit.failure e => { logged := true, reraised := some e }

/-- Exception discipline of `RPC._recv_loop`:
`except CancelledError: return`; `except Exception: log` — and no
re-raise, the coroutine returns normally. -/
def recv_loop_on_exit : LoopExit → LoopResult
  | LoopExit.finished => { logged := false, reraised := none }
  | LoopExit.cancelled => { logged := false, reraised := none }
  | LoopExit.failure _ => { logged := true, reraised := none }

/-- `RPC.make_request`: allocate a fresh uid, register a pending future
(`_register_request`), then build and send the request frame.  When the
send raises (conflicting kind, or channel not connected) the registration
performed just before is kept — Python has no rollback. -/
def make_request (st : RPCState) (kind : String) (fields : Option Dict) :
    RPCState × Except RpcError String :=
  let uid := freshUid st.nextUid
  let st1 := { st with
    nextUid := st.nextUid + 1,
    futureByUid := aset st.futureByUid uid FutureState.pending }
  match send_request_message st1 uid kind fields with
  | Except.ok st2 => (st2, Except.ok uid)
  | Except.error e => (st1, Except.error e)

/-- The caller-side view of one `RPC.Stream` object: its uid and its
`closed` flag. -/
structure StreamHandle where
  uid : String
  closed : Bool
deriving DecidableEq, Repr

/-- `RPC._deregister_stream`: `self._incoming_by_stream_uid.pop(uid)` —
raises `KeyError` when the uid is not registered. -/
def deregister_stream (st : RPCState) (uid : String) : RPCState × Option RpcError :=
  if acontains st.incomingByStreamUid uid then
    ({ st with incomingByStreamUid := aremove st.incomingByStreamUid uid }, none)
  else (st, some RpcError.keyError)

/-- `RPC._register_stream`. -/
def register_stream (st : RPCState) (uid : String) : RPCState :=
  { st with incomingByStreamUid := aset st.incomingByStreamUid uid [] }

/-- `RPC.open_stream`: fresh uid, register an empty inbound queue. -/
def open_stream (st : RPCState) : RPCState × StreamHandle :=
  let uid := freshUid st.nextUid
  ({ register_stream st uid with nextUid := st.nextUid + 1 }, { uid := uid, closed := false })

/-- `RPC.Stream.fail`: send a stream error frame, mark closed, then
deregister (which raises `KeyError` when the uid is absent).  The closed
flag is never consulted. -/
def stream_fail (st : RPCState) (s : StreamHandle) (error : Option String)
    (fields : Option Dict) : RPCState × StreamHandle × Option RpcError :=
  match send_stream_error st s.uid error fields with
  | Except.error e => (st, s, some e)
  | Except.ok st1 =>
    let s1 := { s with closed := true }
    match deregister_stream st1 s.uid with
    | (st2, r) => (st2, s1, r)

/-- `RPC.Stream.close`: send a `close` stream frame, mark closed, then
deregister (which raises `KeyError` when the uid is absent).  The closed
flag is never consulted. -/
def stream_close (st : RPCState) (s : StreamHandle) (fields : Option Dict) :
    RPCState × StreamHandle × Option RpcError :=
  match send_stream_message st s.uid "close" fields with
  | Except.error e => (st, s, some e)
  | Except.ok st1 =>
    let s1 := { s with closed := true }
    match deregister_stream st1 s.uid with
    | (st2, r) => (st2, s1, r)

/-- Result of one `RPC.Stream.recv` call: still blocked on the queue,
returned a value (`none` being the Python `None` end sentinel), or raised. -/
inductive RecvOutcome where
  | blocked
  | value (d : Option Dict)
  | raised (e : RpcError)
deriving DecidableEq, Repr

/-- `RPC.Stream.recv`: validate state, fetch the stream's queue, await one
message, then branch on its `kind` exactly as the Python `match`: an
`error` message deregisters, marks closed and raises (the carried string
if present, a generic message otherwise); a `close` message deregisters,
marks closed and returns the `None` sentinel; any other string `kind`
returns the message; a malformed message triggers `Stream.fail` and then
raises. -/
def stream_recv (st : RPCState) (s : StreamHandle) :
    RPCState × StreamHandle × RecvOutcome :=
  if s.closed then
    (st, s, RecvOutcome.raised (RpcError.runtimeError "stream is already closed"))
  else
    match aget? st.incomingByStreamUid s.uid with
    | none =>
      (st, s, RecvOutcome.raised (RpcError.runtimeError "stream is in an inconsistent state"))
    | some [] => (st, s, RecvOutcome.blocked)
    | some (result :: rest) =>
      let st1 := { st with incomingByStreamUid := aset st.incomingByStreamUid s.uid rest }
      match aget? result "kind" with
      | some (Value.str "error") =>
        match deregister_stream st1 s.uid with
        | (st2, some e) => (st2, s, RecvOutcome.raised e)
        | (st2, none) =>
          let s2 := { s with closed := true }
          match aget? result "error" with
          | some (Value.str error) => (st2, s2, RecvOutcome.raised (RpcError.exceptionError error))
          | _ =>
            (st2, s2,
              RecvOutcome.raised (RpcError.exceptionError "Stream closed with unspecified error"))
      | some (Value.str "close") =>
        match deregister_stream st1 s.uid with
        | (st2, some e) => (st2, s, RecvOutcome.raised e)
        | (st2, none) => (st2, { s with closed := true }, RecvOutcome.value none)
      | some (Value.str _) => (st1, s, RecvOutcome.value (some result))
      | _ =>
        match stream_fail st1 s (some "Unexpected stream message format") none with
        | (st2, s2, some e) => (st2, s2, RecvOutcome.raised e)
        | (st2, s2, none) =>
          (st2, s2, RecvOutcome.raised (RpcError.exceptionError "Unexpected stream message format"))

end PugProtocol

namespace PugProtocol

lemma aget?_cons_self {α : Type} (k : String) (v : α) (d : AList α) :
    aget? ((k, v) :: d) k = some v := by
  simp [aget?]

lemma aget?_cons_ne {α : Type} {k k' : String} (v : α) (d : AList α) (h : k ≠ k') :
    aget? ((k, v) :: d) k' = aget? d k' := by
  simp [aget?, h]

lemma aget?_aset_self {α : Type} (d : AList α) (k : String) (v : α) :
    aget? (aset d k v) k = some v := by
  induction d with
  | nil => simp [aset, aget?]
  | cons p rest ih =>
    by_cases h : p.1 = k
    · simp [aset, h, aget?]
    · simp [aset, h, aget?, ih]

lemma aget?_aset_ne {α : Type} (d : AList α) {k k' : String} (v : α) (h : k' ≠ k) :
    aget? (aset d k v) k' = aget? d k' := by
  have hkk : ¬(k = k') := fun hh => h hh.symm
  induction d with
  | nil => simp [aset, aget?, hkk]
  | cons p rest ih =>
    by_cases hp : p.1 = k
    · subst hp
      simp [aset, aget?, hkk]
    · simp [aset, hp, aget?, ih]

lemma acontains_aset_self {α : Type} (d : AList α) (k : String) (v : α) :
    acontains (aset d k v) k = true := by
  simp [acontains, aget?_aset_self]

lemma aget?_eq_none_of_keys {α : Type} (d : AList α) (k : String)
    (h : ∀ p ∈ d, p.1 ≠ k) : aget? d k = none := by
  induction d with
  | nil => rfl
  | cons p rest ih =>
    have hp : p.1 ≠ k := h p (by simp)
    simp only [aget?, if_neg hp]
    exact ih (fun q hq => h q (by simp [hq]))

lemma aset_of_aget?_none {α : Type} (d : AList α) (k : String) (v : α)
    (h : aget? d k = none) : aset d k v = d ++ [(k, v)] := by
  induction d with
  | nil => rfl
  | cons p rest ih =>
    by_cases hp : p.1 = k
    · simp [aget?, hp] at h
    · simp only [aget?, if_neg hp] at h
      simp [aset, hp, ih h]

lemma aget?_append_of_none {α : Type} (d e : AList α) (k : String)
    (h : aget? d k = none) : aget? (d ++ e) k = aget? e k := by
  induction d with
  | nil => rfl
  | cons p rest ih =>
    by_cases hp : p.1 = k
    · simp [aget?, hp] at h
    · simp only [aget?, if_neg hp] at h
      simp only [List.cons_append, aget?, if_neg hp]
      exact ih h

lemma acontains_aremove_self {α : Type} (d : AList α) (k : String) :
    acontains (aremove d k) k = false := by
  induction d with
  | nil => rfl
  | cons p rest ih =>
    by_cases hp : p.1 = k
    · simpa [aremove, hp] using ih
    · simp only [aremove, if_neg hp]
      simp only [acontains, aget?, if_neg hp]
      exact ih

lemma aget?_aremove_ne {α : Type} (d : AList α) {k k' : String} (h : k' ≠ k) :
    aget? (aremove d k) k' = aget? d k' := by
  induction d with
  | nil => rfl
  | cons p rest ih =>
    by_cases hp : p.1 = k
    · have hne : ¬(p.1 = k') := by
        rw [hp]; exact fun hh => h hh.symm
      have hkk : ¬(k = k') := fun hh => h hh.symm
      simp [aremove, hp, aget?, hne, hkk, ih]
    · simp [aremove, hp, aget?, ih]

lemma dunion_of_disjoint (d P : Dict) (hdisj : ∀ p ∈ P, aget? d p.1 = none)
    (hnd : (P.map Prod.fst).Nodup) : dunion d P = d ++ P := by
  induction P generalizing d with
  | nil => simp [dunion]
  | cons p rest ih =>
    have h1 : aget? d p.1 = none := hdisj p (by simp)
    have step : dunion d (p :: rest) = dunion (aset d p.1 p.2) rest := rfl
    rw [step, aset_of_aget?_none d p.1 p.2 h1]
    have hnd' : (rest.map Prod.fst).Nodup := (List.nodup_cons.mp hnd).2
    have hnotin : p.1 ∉ rest.map Prod.fst := (List.nodup_cons.mp hnd).1
    have hdisj' : ∀ q ∈ rest, aget? (d ++ [(p.1, p.2)]) q.1 = none := by
      intro q hq
      have hqd : aget? d q.1 = none := hdisj q (by simp [hq])
      rw [aget?_append_of_none d _ _ hqd]
      have hne : p.1 ≠ q.1 := by
        intro hcontra
        exact hnotin (hcontra ▸ List.mem_map_of_mem Prod.fst hq)
      simp [aget?, hne]
    rw [ih _ hdisj' hnd']
    simp

end PugProtocol

namespace PugProtocol

lemma chan_run_connected (ch : ChannelState) (evs : List ChanEvent) (h : ch.connected = true) :
    ∃ ch2, chan_run ch evs = Except.ok ch2 ∧ ch2.connected = true ∧
      ch2.written ++ ch2.sendQueue = ch.written ++ ch.sendQueue ++ sentFrames evs := by
  induction evs generalizing ch with
  | nil => exact ⟨ch, rfl, h, by simp [sentFrames]⟩
  | cons e es ih =>
    cases e with
    | clientSend m =>
      have hstep : chan_event_step ch (ChanEvent.clientSend m) =
          Except.ok { ch with sendQueue := ch.sendQueue ++ [m] } := by
        simp [chan_event_step, channel_send, h]
      obtain ⟨ch2, hrun, hc, hw⟩ := ih { ch with sendQueue := ch.sendQueue ++ [m] } h
      refine ⟨ch2, by simp only [chan_run, hstep]; exact hrun, hc, ?_⟩
      rw [hw]; simp [sentFrames]
    | loopStep =>
      cases hq : ch.sendQueue with
      | nil =>
        have hstep : chan_event_step ch ChanEvent.loopStep = Except.ok ch := by
          simp [chan_event_step, hq]
        obtain ⟨ch2, hrun, hc, hw⟩ := ih ch h
        exact ⟨ch2, by simp only [chan_run, hstep]; exact hrun, hc,
          by rw [hw]; simp [sentFrames, hq]⟩
      | cons m rest =>
        have hstep : chan_event_step ch ChanEvent.loopStep =
            Except.ok { ch with sendQueue := rest, written := ch.written ++ [m] } := by
          simp [chan_event_step, hq]
        obtain ⟨ch2, hrun, hc, hw⟩ :=
          ih { ch with sendQueue := rest, written := ch.written ++ [m] } h
        refine ⟨ch2, by simp only [chan_run, hstep]; exact hrun, hc, ?_⟩
        rw [hw]; simp [sentFrames, hq]

lemma chan_run_loopSteps (conn : Bool) (q w : List Dict) :
    chan_run ⟨conn, q, w⟩ (List.replicate q.length ChanEvent.loopStep) =
      Except.ok ⟨conn, [], w ++ q⟩ := by
  induction q generalizing w with
  | nil => simp [chan_run]
  | cons m rest ih =>
    have hstep : chan_event_step ⟨conn, m :: rest, w⟩ ChanEvent.loopStep =
        Except.ok ⟨conn, rest, w ++ [m]⟩ := rfl
    simp only [List.length_cons, List.replicate_succ, chan_run, hstep]
    rw [ih (w ++ [m])]
    simp

/-- C2: every frame passed to `send` on a connected channel is enqueued
without being written, and under any interleaving of `send` calls and
send-loop iterations the frames written by the loop (after draining) are
exactly the sent frames, in send-call order: FIFO, no loss, no
reordering. -/
theorem c2_buffered_channel_fifo (ch : ChannelState) (evs : List ChanEvent)
    (hconn : ch.connected = true) (hq : ch.sendQueue = []) (hw : ch.written = []) :
    (∀ m, channel_send ch m = Except.ok { ch with sendQueue := ch.sendQueue ++ [m] }) ∧
    ∃ ch2 ch3, chan_run ch evs = Except.ok ch2 ∧
      ch2.written ++ ch2.sendQueue = sentFrames evs ∧
      chan_run ch2 (List.replicate ch2.sendQueue.length ChanEvent.loopStep) = Except.ok ch3 ∧
      ch3.written = sentFrames evs ∧ ch3.sendQueue = [] := by
  obtain ⟨ch2, hrun, hc2, hinv⟩ := chan_run_connected ch evs hconn
  have hinv2 : ch2.written ++ ch2.sendQueue = sentFrames evs := by
    rw [hinv, hq, hw]; simp
  refine ⟨fun m => by simp [channel_send, hconn], ch2,
    ⟨ch2.connected, [], ch2.written ++ ch2.sendQueue⟩, hrun, hinv2, ?_, hinv2, rfl⟩
  exact chan_run_loopSteps ch2.connected ch2.sendQueue ch2.written

end PugProtocol

namespace PugProtocol

/-- The inbound success-response frame of the round-trip claims: the dict
literal `{"type": "response", "uid": uid, "kind": K, **P}`. -/
def responseFrame (uid K : String) (P : Dict) : Dict :=
  mkDict ([("type", Value.str "response"), ("uid", Value.str uid), ("kind", Value.str K)] ++ P)

/-- Well-formedness of a payload mapping: unique keys, none colliding with
the frame envelope keys `type` / `uid` / `kind` (a Python dict cannot
carry a duplicate key, and a payload key equal to an envelope key would
denote a different frame). -/
def payloadKeysOK (P : Dict) : Prop :=
  (P.map Prod.fst).Nodup ∧ ∀ p ∈ P, p.1 ≠ "type" ∧ p.1 ≠ "uid" ∧ p.1 ≠ "kind"

lemma responseFrame_eq (uid K : String) (P : Dict) (hP : payloadKeysOK P) :
    responseFrame uid K P =
      ("type", Value.str "response") :: ("uid", Value.str uid) :: ("kind", Value.str K) :: P := by
  obtain ⟨hnd, hkeys⟩ := hP
  unfold responseFrame mkDict
  rw [dunion_of_disjoint]
  · rfl
  · intro p _
    rfl
  · rw [List.map_append, List.nodup_append]
    refine ⟨by simp [List.nodup_cons], hnd, ?_⟩
    intro a ha hb
    obtain ⟨p, hp, rfl⟩ := List.mem_map.mp hb
    obtain ⟨h1, h2, h3⟩ := hkeys p hp
    simp only [List.map_cons, List.map_nil, List.mem_cons, List.not_mem_nil, or_false] at ha
    rcases ha with h | h | h
    · exact h1 h
    · exact h2 h
    · exact h3 h

lemma restFields_cons_envelope (uid K : String) (P : Dict) (hP : payloadKeysOK P) :
    restFields
      (("type", Value.str "response") :: ("uid", Value.str uid) :: ("kind", Value.str K) :: P)
      = P := by
  unfold restFields
  simp only [List.filter_cons]
  simp only [show (decide (("type" : String) ≠ "type" ∧ ("type" : String) ≠ "uid" ∧
    ("type" : String) ≠ "kind")) = false by simp,
    show (decide (("uid" : String) ≠ "type" ∧ ("uid" : String) ≠ "uid" ∧
    ("uid" : String) ≠ "kind")) = false by simp,
    show (decide (("kind" : String) ≠ "type" ∧ ("kind" : String) ≠ "uid" ∧
    ("kind" : String) ≠ "kind")) = false by simp, Bool.false_eq_true, if_false]
  exact List.filter_eq_self.mpr (fun p hp => by
    obtain ⟨h1, h2, h3⟩ := hP.2 p hp
    simp [h1, h2, h3])

end PugProtocol

namespace PugProtocol

/-- A fresh, connected channel with empty queue and empty wire history. -/
def chanSt0 : ChannelState := ⟨true, [], []⟩

/-- A freshly started RPC engine: connected channel, empty correlation
tables. -/
def rpcSt0 : RPCState := ⟨chanSt0, [], [], 0⟩

/-- C1: `make_request(K, P)` allocates a fresh uid and registers a pending
future for it, and dispatching the inbound frame
`{"type": "response", "uid": <that uid>, "kind": K, **P}` with
`K ≠ "error"` resolves that future to exactly the mapping
`{"kind": K, **P}`. -/
theorem c1_request_response_roundtrip (st : RPCState) (K : String) (P : Dict)
    (hconn : st.channel.connected = true) (hK : K ≠ "error")
    (hfresh : acontains st.futureByUid (freshUid st.nextUid) = false)
    (hP : payloadKeysOK P) :
    ∃ st1 st2,
      make_request st K (some P) = (st1, Except.ok (freshUid st.nextUid)) ∧
      aget? st1.futureByUid (freshUid st.nextUid) = some FutureState.pending ∧
      on_message st1 (responseFrame (freshUid st.nextUid) K P) = (st2, none) ∧
      aget? st2.futureByUid (freshUid st.nextUid) =
        some (FutureState.resolved (("kind", Value.str K) :: P)) := by
  have hPkind : aget? P "kind" = none :=
    aget?_eq_none_of_keys P "kind" (fun p hp => (hP.2 p hp).2.2)
  have hnorm : normalize_kind_and_fields K (some P) =
      Except.ok (dunion P [("kind", Value.str K)]) := by
    simp [normalize_kind_and_fields, hPkind]
  obtain ⟨⟨conn, sq, wr⟩, fb, inc, n⟩ := st
  replace hconn : conn = true := hconn
  subst hconn
  set u := freshUid n with hu
  set reqFrame : Dict := dunion [("type", Value.str "request"), ("uid", Value.str u)]
    (dunion P [("kind", Value.str K)]) with hreq
  set st1 : RPCState :=
    ⟨⟨true, sq ++ [reqFrame], wr⟩, aset fb u FutureState.pending, inc, n + 1⟩ with hst1
  have hmk : make_request ⟨⟨true, sq, wr⟩, fb, inc, n⟩ K (some P) = (st1, Except.ok u) := by
    simp [make_request, send_request_message, hnorm, send_message, channel_send, hst1, hreq]
  have hframe := responseFrame_eq u K P hP
  have ht : aget? (responseFrame u K P) "type" = some (Value.str "response") := by
    rw [hframe]; simp [aget?]
  have hu2 : aget? (responseFrame u K P) "uid" = some (Value.str u) := by
    rw [hframe]; simp [aget?]
  have hk2 : aget? (responseFrame u K P) "kind" = some (Value.str K) := by
    rw [hframe]; simp [aget?]
  have hrest : restFields (responseFrame u K P) = P := by
    rw [hframe]; exact restFields_cons_envelope u K P hP
  set st2 : RPCState :=
    ⟨⟨true, sq ++ [reqFrame], wr⟩,
      aset (aset fb u FutureState.pending) u (FutureState.resolved (("kind", Value.str K) :: P)),
      inc, n + 1⟩ with hst2
  have hresp : on_response st1 u K P = (st2, none) := by
    simp [on_response, hK, hst1, hst2, aget?_aset_self]
  have hstep : on_message st1 (responseFrame u K P) =
      on_response st1 u K (restFields (responseFrame u K P)) := by
    simp only [on_message, ht, hu2, hk2]
    simp
  have hon : on_message st1 (responseFrame u K P) = (st2, none) := by
    rw [hstep, hrest, hresp]
  refine ⟨st1, st2, hmk, ?_, hon, ?_⟩
  · simpa [hst1] using aget?_aset_self fb u FutureState.pending
  · simpa [hst2] using
      aget?_aset_self (aset fb u FutureState.pending) u
        (FutureState.resolved (("kind", Value.str K) :: P))

end PugProtocol

namespace PugProtocol

/-- Witness for C1 at a concrete state, kind and payload. -/
theorem c1_request_response_roundtrip_witness :
    rpcSt0.channel.connected = true ∧ ("ping" : String) ≠ "error" ∧
    acontains rpcSt0.futureByUid (freshUid rpcSt0.nextUid) = false ∧
    payloadKeysOK [("x", Value.int 1)] ∧
    (∃ st1 st2,
      make_request rpcSt0 "ping" (some [("x", Value.int 1)]) =
        (st1, Except.ok (freshUid rpcSt0.nextUid)) ∧
      aget? st1.futureByUid (freshUid rpcSt0.nextUid) = some FutureState.pending ∧
      on_message st1 (responseFrame (freshUid rpcSt0.nextUid) "ping" [("x", Value.int 1)]) =
        (st2, none) ∧
      aget? st2.futureByUid (freshUid rpcSt0.nextUid) =
        some (FutureState.resolved (("kind", Value.str "ping") :: [("x", Value.int 1)]))) :=
  ⟨rfl, by decide, rfl, by constructor <;> decide,
    c1_request_response_roundtrip rpcSt0 "ping" [("x", Value.int 1)] rfl (by decide) rfl
      (by constructor <;> decide)⟩

/-- A concrete interleaving for the C2 witness: two requests sent back to
back, then two send-loop iterations. -/
def c2Events : List ChanEvent :=
  [ChanEvent.clientSend
      (mkDict [("type", Value.str "request"), ("uid", Value.str "u1"), ("kind", Value.str "a")]),
   ChanEvent.clientSend
      (mkDict [("type", Value.str "request"), ("uid", Value.str "u2"), ("kind", Value.str "b")]),
   ChanEvent.loopStep, ChanEvent.loopStep]

/-- Witness for C2 at a concrete channel and event interleaving. -/
theorem c2_buffered_channel_fifo_witness :
    chanSt0.connected = true ∧ chanSt0.sendQueue = [] ∧ chanSt0.written = [] ∧
    ((∀ m, channel_send chanSt0 m =
        Except.ok { chanSt0 with sendQueue := chanSt0.sendQueue ++ [m] }) ∧
     ∃ ch2 ch3, chan_run chanSt0 c2Events = Except.ok ch2 ∧
       ch2.written ++ ch2.sendQueue = sentFrames c2Events ∧
       chan_run ch2 (List.replicate ch2.sendQueue.length ChanEvent.loopStep) = Except.ok ch3 ∧
       ch3.written = sentFrames c2Events ∧ ch3.sendQueue = []) :=
  ⟨rfl, rfl, rfl, c2_buffered_channel_fifo chanSt0 c2Events rfl rfl rfl⟩

/-- C3 counterexample: make a request (it gets uid `uid-0`), dispatch its
matching response, and the uid is STILL present in the request correlation
table — `on_response` resolves the future but never removes the entry, so
the claim that the uid is no longer present after dispatch is false. -/
theorem c3_counterexample :
    acontains
      (on_message (make_request rpcSt0 "ping" none).1
        (responseFrame "uid-0" "ping" [])).1.futureByUid "uid-0" = true := by
  decide

/-- C3 (amended): dispatching the matching response resolves the
PendingRequest exactly once, but the entry is never removed from
`_future_by_uid`: after `on_response` the uid is still registered (now
mapped to the resolved future) and every other entry is untouched. -/
theorem c3_entry_never_removed (st : RPCState) (uid kind : String) (fields : Dict)
    (hpend : aget? st.futureByUid uid = some FutureState.pending) (hkind : kind ≠ "error") :
    (on_response st uid kind fields).2 = none ∧
    aget? (on_response st uid kind fields).1.futureByUid uid =
      some (FutureState.resolved (("kind", Value.str kind) :: fields)) ∧
    acontains (on_response st uid kind fields).1.futureByUid uid = true ∧
    ∀ u2, u2 ≠ uid →
      aget? (on_response st uid kind fields).1.futureByUid u2 = aget? st.futureByUid u2 := by
  have hr : on_response st uid kind fields =
      ({ st with futureByUid := aset st.futureByUid uid (FutureState.resolved (("kind", Value.str kind) :: fields)) }, none) := by
    simp [on_response, hkind, hpend]
  rw [hr]
  refine ⟨rfl, ?_, ?_, ?_⟩
  · exact aget?_aset_self st.futureByUid uid _
  · exact acontains_aset_self st.futureByUid uid _
  · intro u2 h2
    exact aget?_aset_ne st.futureByUid _ h2

/-- Witness for the amended C3 at a concrete registered request. -/
theorem c3_entry_never_removed_witness :
    aget? (RPCState.mk chanSt0 [("u", FutureState.pending)] [] 0).futureByUid "u" =
      some FutureState.pending ∧ (("ok" : String) ≠ "error") ∧
    ((on_response ⟨chanSt0, [("u", FutureState.pending)], [], 0⟩ "u" "ok" []).2 = none ∧
     aget? (on_response ⟨chanSt0, [("u", FutureState.pending)], [], 0⟩ "u" "ok" []).1.futureByUid
        "u" = some (FutureState.resolved (("kind", Value.str "ok") :: [])) ∧
     acontains
        (on_response ⟨chanSt0, [("u", FutureState.pending)], [], 0⟩ "u" "ok" []).1.futureByUid
        "u" = true ∧
     ∀ u2, u2 ≠ "u" →
       aget? (on_response ⟨chanSt0, [("u", FutureState.pending)], [], 0⟩ "u" "ok" []).1.futureByUid
          u2 = aget? (RPCState.mk chanSt0 [("u", FutureState.pending)] [] 0).futureByUid u2) :=
  ⟨by decide, by decide,
    c3_entry_never_removed ⟨chanSt0, [("u", FutureState.pending)], [], 0⟩ "u" "ok" []
      (by decide) (by decide)⟩

end PugProtocol

namespace PugProtocol

/-- Does the dict carry key `k` with a string value? (the shape tested by
the `{"error": str(error)}` patterns). -/
def hasStrField (d : Dict) (k : String) : Bool :=
  match aget? d k with
  | some (Value.str _) => true
  | _ => false

lemma rpc_fail_connected (st : RPCState) (msg : String) (hconn : st.channel.connected = true) :
    rpc_fail st msg =
      ({ st with channel := { st.channel with connected := false, sendQueue := st.channel.sendQueue ++ [mkDict [("type", Value.str "error"), ("error", Value.str msg)]] } }, none) := by
  simp [rpc_fail, send_toplevel_error, send_message, channel_send, hconn, channel_close]

/-- C4: an error-kind response frame for a registered pending uid resolves
that request to a failure — a `PermissionError` exactly when the carried
error text is the literal "session is not authenticated", a generic
failure for every other text — while an error-kind response carrying no
string `error` field instead triggers `fail`: a top-level error frame is
enqueued and the channel is closed, and no future is touched. -/
theorem c4_error_response_dispatch (st : RPCState) (uid : String)
    (hpend : aget? st.futureByUid uid = some FutureState.pending)
    (hconn : st.channel.connected = true) :
    (∀ fields E, aget? fields "error" = some (Value.str E) →
      on_response st uid "error" fields =
        ({ st with futureByUid := aset st.futureByUid uid (FutureState.failed (if E = "session is not authenticated" then RpcError.permissionError E else RpcError.exceptionError E)) }, none)) ∧
    (∀ fields, hasStrField fields "error" = false →
      (on_response st uid "error" fields).2 = none ∧
      (on_response st uid "error" fields).1.futureByUid = st.futureByUid ∧
      (on_response st uid "error" fields).1.channel.connected = false ∧
      (on_response st uid "error" fields).1.channel.sendQueue =
        st.channel.sendQueue ++ [mkDict [("type", Value.str "error"), ("error", Value.str ("Unexpected response message kind=" ++ "error"))]]) := by
  constructor
  · intro fields E hE
    simp [on_response, hE, hpend]
  · intro fields hf
    have hfail : on_response st uid "error" fields =
        rpc_fail st ("Unexpected response message kind=" ++ "error") := by
      cases h : aget? fields "error" with
      | none => simp [on_response, h]
      | some v =>
        cases v with
        | str s => simp [hasStrField, h] at hf
        | int i => simp [on_response, h]
        | bool b => simp [on_response, h]
        | null => simp [on_response, h]
    rw [hfail, rpc_fail_connected st _ hconn]
    exact ⟨rfl, rfl, rfl, rfl⟩

/-- Witness for C4 at a concrete registered request and concrete frames. -/
theorem c4_error_response_dispatch_witness :
    aget? (RPCState.mk chanSt0 [("u", FutureState.pending)] [] 0).futureByUid "u" =
      some FutureState.pending ∧
    (RPCState.mk chanSt0 [("u", FutureState.pending)] [] 0).channel.connected = true ∧
    ((∀ fields E, aget? fields "error" = some (Value.str E) →
      on_response ⟨chanSt0, [("u", FutureState.pending)], [], 0⟩ "u" "error" fields =
        ({ RPCState.mk chanSt0 [("u", FutureState.pending)] [] 0 with futureByUid := aset (RPCState.mk chanSt0 [("u", FutureState.pending)] [] 0).futureByUid "u" (FutureState.failed (if E = "session is not authenticated" then RpcError.permissionError E else RpcError.exceptionError E)) }, none)) ∧
    (∀ fields, hasStrField fields "error" = false →
      (on_response ⟨chanSt0, [("u", FutureState.pending)], [], 0⟩ "u" "error" fields).2 = none ∧
      (on_response ⟨chanSt0, [("u", FutureState.pending)], [], 0⟩ "u" "error" fields).1.futureByUid = (RPCState.mk chanSt0 [("u", FutureState.pending)] [] 0).futureByUid ∧
      (on_response ⟨chanSt0, [("u", FutureState.pending)], [], 0⟩ "u" "error" fields).1.channel.connected = false ∧
      (on_response ⟨chanSt0, [("u", FutureState.pending)], [], 0⟩ "u" "error" fields).1.channel.sendQueue =
        (RPCState.mk chanSt0 [("u", FutureState.pending)] [] 0).channel.sendQueue ++ [mkDict [("type", Value.str "error"), ("error", Value.str ("Unexpected response message kind=" ++ "error"))]])) :=
  ⟨by decide, rfl,
    c4_error_response_dispatch ⟨chanSt0, [("u", FutureState.pending)], [], 0⟩ "u"
      (by decide) rfl⟩

/-- C8: dispatching a top-level error frame `{"type": "error", "error": E}`
closes the channel and leaves both correlation tables exactly as they
were: no pending future is resolved or failed and no stream queue receives
a message. -/
theorem c8_toplevel_error_dispatch (st : RPCState) (E : String) :
    on_message st (mkDict [("type", Value.str "error"), ("error", Value.str E)]) =
      ({ st with channel := channel_close st.channel }, none) ∧
    ({ st with channel := channel_close st.channel }).futureByUid = st.futureByUid ∧
    ({ st with channel := channel_close st.channel }).incomingByStreamUid =
      st.incomingByStreamUid ∧
    ({ st with channel := channel_close st.channel }).channel.connected = false := by
  have hm : mkDict [("type", Value.str "error"), ("error", Value.str E)] =
      [("type", Value.str "error"), ("error", Value.str E)] := by
    simp [mkDict, dunion, aset]
  have h1 : aget? [("type", Value.str "error"), ("error", Value.str E)] "type" =
      some (Value.str "error") := by simp [aget?]
  have h2 : aget? [("type", Value.str "error"), ("error", Value.str E)] "uid" = none := by
    simp [aget?]
  have h3 : aget? [("type", Value.str "error"), ("error", Value.str E)] "kind" = none := by
    simp [aget?]
  have h4 : aget? [("type", Value.str "error"), ("error", Value.str E)] "error" =
      some (Value.str E) := by simp [aget?]
  refine ⟨?_, rfl, rfl, rfl⟩
  rw [hm]
  simp [on_message, h1, h2, h3, h4, on_message_fallback, on_error]

end PugProtocol

namespace PugProtocol

/-- C9: `make_request(K, F)` with a fields mapping carrying a conflicting
`kind` raises the conflicting-kind `ValueError` before any frame reaches
the channel, but not atomically: the freshly allocated uid has already
been registered in `_future_by_uid` and its pending entry survives the
error. -/
theorem c9_conflicting_kind_not_atomic (st : RPCState) (K : String) (P : Dict) (v : Value)
    (hv : aget? P "kind" = some v) (hne : v ≠ Value.str K) :
    ∃ st1, make_request st K (some P) =
        (st1, Except.error (RpcError.valueError "Conflicting kind in fields")) ∧
      st1.channel = st.channel ∧
      aget? st1.futureByUid (freshUid st.nextUid) = some FutureState.pending ∧
      ∀ u2, u2 ≠ freshUid st.nextUid → aget? st1.futureByUid u2 = aget? st.futureByUid u2 := by
  have hnorm : normalize_kind_and_fields K (some P) =
      Except.error (RpcError.valueError "Conflicting kind in fields") := by
    simp [normalize_kind_and_fields, hv, hne]
  refine ⟨{ st with nextUid := st.nextUid + 1, futureByUid := aset st.futureByUid (freshUid st.nextUid) FutureState.pending }, ?_, rfl, ?_, ?_⟩
  · simp [make_request, send_request_message, hnorm]
  · exact aget?_aset_self st.futureByUid (freshUid st.nextUid) FutureState.pending
  · intro u2 h2
    exact aget?_aset_ne st.futureByUid FutureState.pending h2

/-- Witness for C9 at a concrete conflicting payload. -/
theorem c9_conflicting_kind_not_atomic_witness :
    aget? [("kind", Value.str "other")] "kind" = some (Value.str "other") ∧
    Value.str "other" ≠ Value.str "ping" ∧
    (∃ st1, make_request rpcSt0 "ping" (some [("kind", Value.str "other")]) =
        (st1, Except.error (RpcError.valueError "Conflicting kind in fields")) ∧
      st1.channel = rpcSt0.channel ∧
      aget? st1.futureByUid (freshUid rpcSt0.nextUid) = some FutureState.pending ∧
      ∀ u2, u2 ≠ freshUid rpcSt0.nextUid →
        aget? st1.futureByUid u2 = aget? rpcSt0.futureByUid u2) :=
  ⟨by decide, by decide,
    c9_conflicting_kind_not_atomic rpcSt0 "ping" [("kind", Value.str "other")]
      (Value.str "other") (by decide) (by decide)⟩

/-- C7 counterexample: a non-cancellation failure in the RPC receive loop
is NOT re-raised — `_recv_loop`'s `except Exception` clause only logs, so
the owning scope observes a normal task exit, contradicting the claim that
both background loops re-raise such failures. -/
theorem c7_counterexample :
    (recv_loop_on_exit (LoopExit.failure RpcError.keyError)).reraised = none ∧
    ¬((recv_loop_on_exit (LoopExit.failure RpcError.keyError)).reraised =
        some RpcError.keyError) := by
  constructor
  · rfl
  · decide

/-- C7 (amended): the channel send loop logs and re-raises every
non-cancellation failure, and treats cancellation as normal shutdown; the
RPC receive loop also treats cancellation as normal shutdown but merely
logs non-cancellation failures and returns normally, so they are not
re-raised to the owning scope. -/
theorem c7_loop_exception_discipline :
    (∀ e, send_loop_on_exit (LoopExit.failure e) = { logged := true, reraised := some e }) ∧
    (∀ e, recv_loop_on_exit (LoopExit.failure e) = { logged := true, reraised := none }) ∧
    send_loop_on_exit LoopExit.cancelled = { logged := false, reraised := none } ∧
    recv_loop_on_exit LoopExit.cancelled = { logged := false, reraised := none } :=
  ⟨fun _ => rfl, fun _ => rfl, rfl, rfl⟩

end PugProtocol

namespace PugProtocol

/-- Dispatching a well-formed success/error response frame reaches
`on_response` with the envelope stripped. -/
lemma on_message_responseFrame (st : RPCState) (uid K : String) (P : Dict)
    (hP : payloadKeysOK P) :
    on_message st (responseFrame uid K P) = on_response st uid K P := by
  have hframe := responseFrame_eq uid K P hP
  have ht : aget? (responseFrame uid K P) "type" = some (Value.str "response") := by
    rw [hframe]; simp [aget?]
  have hu2 : aget? (responseFrame uid K P) "uid" = some (Value.str uid) := by
    rw [hframe]; simp [aget?]
  have hk2 : aget? (responseFrame uid K P) "kind" = some (Value.str K) := by
    rw [hframe]; simp [aget?]
  have hrest : restFields (responseFrame uid K P) = P := by
    rw [hframe]; exact restFields_cons_envelope uid K P hP
  have hstep : on_message st (responseFrame uid K P) =
      on_response st uid K (restFields (responseFrame uid K P)) := by
    simp only [on_message, ht, hu2, hk2]
    simp
  rw [hstep, hrest]

/-- An inbound debug frame used as the follow-up frame in the C6 runs. -/
def c6DebugFrame : Dict := mkDict [("type", Value.str "debug"), ("message", Value.str "hi")]

/-- C6 counterexample: dispatching a response frame whose uid is not in
the correlation table raises `KeyError` inside the dispatch; the receive
loop catches it but then exits, so the following debug frame is never
dispatched — the engine does NOT continue to dispatch subsequent inbound
frames. -/
theorem c6_counterexample :
    (recv_loop_run rpcSt0 [responseFrame "nope" "ping" [], c6DebugFrame]).2 =
      [responseFrame "nope" "ping" []] ∧
    ¬((recv_loop_run rpcSt0 [responseFrame "nope" "ping" [], c6DebugFrame]).2 =
      [responseFrame "nope" "ping" [], c6DebugFrame]) := by
  constructor
  · decide
  · decide

/-- C6 (amended): a response frame for an unregistered uid (`KeyError`) or
for an already-resolved uid (`InvalidStateError`) raises inside the
dispatch; the raised exception never escapes the receive-loop task (its
`except Exception` clause logs it and returns), but the loop exits, so no
subsequent inbound frame is dispatched and the state is left unchanged by
the failing dispatch. -/
theorem c6_unmatched_response_stops_loop (st : RPCState) (uid K : String) (P : Dict)
    (rest : List Dict) (hK : K ≠ "error") (hP : payloadKeysOK P)
    (hunreg : aget? st.futureByUid uid = none ∨
      ∃ v, aget? st.futureByUid uid = some (FutureState.resolved v)) :
    recv_loop_run st (responseFrame uid K P :: rest) = (st, [responseFrame uid K P]) ∧
    (∀ e, (recv_loop_on_exit (LoopExit.failure e)).logged = true ∧
      (recv_loop_on_exit (LoopExit.failure e)).reraised = none) := by
  have hon : ∃ e, on_message st (responseFrame uid K P) = (st, some e) := by
    rw [on_message_responseFrame st uid K P hP]
    rcases hunreg with h | ⟨v, h⟩
    · exact ⟨RpcError.keyError, by simp [on_response, hK, h]⟩
    · exact ⟨RpcError.invalidStateError, by simp [on_response, hK, h]⟩
  obtain ⟨e, he⟩ := hon
  constructor
  · simp [recv_loop_run, he]
  · intro e2
    exact ⟨rfl, rfl⟩

/-- Witness for the amended C6 at a concrete unregistered uid. -/
theorem c6_unmatched_response_stops_loop_witness :
    (("ping" : String) ≠ "error") ∧ payloadKeysOK [] ∧
    aget? rpcSt0.futureByUid "nope" = none ∧
    (recv_loop_run rpcSt0 (responseFrame "nope" "ping" [] :: [c6DebugFrame]) =
      (rpcSt0, [responseFrame "nope" "ping" []]) ∧
     ∀ e, (recv_loop_on_exit (LoopExit.failure e)).logged = true ∧
       (recv_loop_on_exit (LoopExit.failure e)).reraised = none) :=
  ⟨by decide, by constructor <;> decide, rfl,
    c6_unmatched_response_stops_loop rpcSt0 "nope" "ping" [] [c6DebugFrame] (by decide)
      (by constructor <;> decide) (Or.inl rfl)⟩

end PugProtocol

namespace PugProtocol

/-- The frame `Stream.close` sends when called without fields. -/
def streamCloseFrame (uid : String) : Dict :=
  [("type", Value.str "stream"), ("uid", Value.str uid), ("kind", Value.str "close")]

/-- The frame `Stream.fail` sends when called without an error message or
fields. -/
def streamErrorFrameNoMsg (uid : String) : Dict :=
  [("type", Value.str "stream"), ("uid", Value.str uid), ("kind", Value.str "error")]

/-- C10: `Stream.close` and `Stream.fail` never consult the closed flag
(the stream handle `s` here may carry `closed = true`); invoked on a
stream whose uid is no longer registered they still send another
close/error frame to the peer and then raise `KeyError` while popping the
absent uid from the stream correlation table. -/
theorem c10_close_fail_after_deregister (st : RPCState) (s : StreamHandle)
    (hconn : st.channel.connected = true)
    (hdereg : acontains st.incomingByStreamUid s.uid = false) :
    (∃ st1, stream_close st s none = (st1, { s with closed := true }, some RpcError.keyError) ∧
       st1.channel.sendQueue = st.channel.sendQueue ++ [streamCloseFrame s.uid] ∧
       st1.incomingByStreamUid = st.incomingByStreamUid) ∧
    (∃ st2, stream_fail st s none none =
        (st2, { s with closed := true }, some RpcError.keyError) ∧
       st2.channel.sendQueue = st.channel.sendQueue ++ [streamErrorFrameNoMsg s.uid] ∧
       st2.incomingByStreamUid = st.incomingByStreamUid) := by
  have hcf : dunion [("type", Value.str "stream"), ("uid", Value.str s.uid)]
      [("kind", Value.str "close")] = streamCloseFrame s.uid := by
    simp [dunion, aset, streamCloseFrame]
  have hef : dunion [("type", Value.str "stream"), ("uid", Value.str s.uid)]
      (dunion [] [("kind", Value.str "error")]) = streamErrorFrameNoMsg s.uid := by
    simp [dunion, aset, streamErrorFrameNoMsg]
  constructor
  · refine ⟨{ st with channel := { st.channel with sendQueue := st.channel.sendQueue ++ [streamCloseFrame s.uid] } }, ?_, rfl, rfl⟩
    simp [stream_close, send_stream_message, normalize_kind_and_fields, send_message,
      channel_send, hconn, hcf, deregister_stream, hdereg, dunion, aset, aget?,
      streamCloseFrame]
  · refine ⟨{ st with channel := { st.channel with sendQueue := st.channel.sendQueue ++ [streamErrorFrameNoMsg s.uid] } }, ?_, rfl, rfl⟩
    simp [stream_fail, send_stream_error, send_stream_message, normalize_kind_and_fields,
      send_message, channel_send, hconn, hef, deregister_stream, hdereg, dunion, aset, aget?,
      streamErrorFrameNoMsg]

/-- Witness for C10 at a concrete already-deregistered (and even
already-closed) stream handle. -/
theorem c10_close_fail_after_deregister_witness :
    rpcSt0.channel.connected = true ∧
    acontains rpcSt0.incomingByStreamUid (StreamHandle.mk "u" true).uid = false ∧
    ((∃ st1, stream_close rpcSt0 ⟨"u", true⟩ none =
        (st1, { StreamHandle.mk "u" true with closed := true }, some RpcError.keyError) ∧
       st1.channel.sendQueue = rpcSt0.channel.sendQueue ++ [streamCloseFrame (StreamHandle.mk "u" true).uid] ∧
       st1.incomingByStreamUid = rpcSt0.incomingByStreamUid) ∧
    (∃ st2, stream_fail rpcSt0 ⟨"u", true⟩ none none =
        (st2, { StreamHandle.mk "u" true with closed := true }, some RpcError.keyError) ∧
       st2.channel.sendQueue = rpcSt0.channel.sendQueue ++ [streamErrorFrameNoMsg (StreamHandle.mk "u" true).uid] ∧
       st2.incomingByStreamUid = rpcSt0.incomingByStreamUid)) :=
  ⟨rfl, rfl, c10_close_fail_after_deregister rpcSt0 ⟨"u", true⟩ rfl rfl⟩

end PugProtocol

namespace PugProtocol

/-- C5: on an open stream whose queue holds a next message, `recv`
behaves by `kind`: `close` deregisters the uid, marks the stream closed
and returns the `None` end sentinel; `error` deregisters, marks closed and
raises the carried `error` string when present and a string, else the
generic "Stream closed with unspecified error"; any other message with a
string kind is returned unchanged, consuming only the queue head. -/
theorem c5_stream_recv_dispatch (st : RPCState) (s : StreamHandle) (msg : Dict)
    (rest : List Dict) (hopen : s.closed = false)
    (hq : aget? st.incomingByStreamUid s.uid = some (msg :: rest)) :
    (aget? msg "kind" = some (Value.str "close") →
      (stream_recv st s).2.2 = RecvOutcome.value none ∧
      (stream_recv st s).2.1.closed = true ∧
      acontains (stream_recv st s).1.incomingByStreamUid s.uid = false) ∧
    (∀ E, aget? msg "kind" = some (Value.str "error") →
      aget? msg "error" = some (Value.str E) →
      (stream_recv st s).2.2 = RecvOutcome.raised (RpcError.exceptionError E) ∧
      (stream_recv st s).2.1.closed = true ∧
      acontains (stream_recv st s).1.incomingByStreamUid s.uid = false) ∧
    (aget? msg "kind" = some (Value.str "error") → hasStrField msg "error" = false →
      (stream_recv st s).2.2 =
        RecvOutcome.raised (RpcError.exceptionError "Stream closed with unspecified error") ∧
      (stream_recv st s).2.1.closed = true ∧
      acontains (stream_recv st s).1.incomingByStreamUid s.uid = false) ∧
    (∀ k, aget? msg "kind" = some (Value.str k) → k ≠ "error" → k ≠ "close" →
      stream_recv st s =
        ({ st with incomingByStreamUid := aset st.incomingByStreamUid s.uid rest }, s,
          RecvOutcome.value (some msg))) := by
  refine ⟨?_, ?_, ?_, ?_⟩
  · intro hk
    refine ⟨?_, ?_, ?_⟩ <;>
      simp [stream_recv, hopen, hq, hk, deregister_stream, acontains_aset_self,
        acontains_aremove_self]
  · intro E hke hE
    refine ⟨?_, ?_, ?_⟩ <;>
      simp [stream_recv, hopen, hq, hke, hE, deregister_stream, acontains_aset_self,
        acontains_aremove_self]
  · intro hke hf
    cases hE : aget? msg "error" with
    | none =>
      refine ⟨?_, ?_, ?_⟩ <;>
        simp [stream_recv, hopen, hq, hke, hE, deregister_stream, acontains_aset_self,
          acontains_aremove_self]
    | some v =>
      cases v with
      | str ss => simp [hasStrField, hE] at hf
      | int i =>
        refine ⟨?_, ?_, ?_⟩ <;>
          simp [stream_recv, hopen, hq, hke, hE, deregister_stream, acontains_aset_self,
            acontains_aremove_self]
      | bool b =>
        refine ⟨?_, ?_, ?_⟩ <;>
          simp [stream_recv, hopen, hq, hke, hE, deregister_stream, acontains_aset_self,
            acontains_aremove_self]
      | null =>
        refine ⟨?_, ?_, ?_⟩ <;>
          simp [stream_recv, hopen, hq, hke, hE, deregister_stream, acontains_aset_self,
            acontains_aremove_self]
  · intro k hk hk1 hk2
    simp [stream_recv, hopen, hq, hk, hk1, hk2, Ne.symm hk1, Ne.symm hk2]

end PugProtocol

namespace PugProtocol

/-- A concrete data message for the C5 witness. -/
def c5Msg : Dict := [("kind", Value.str "data"), ("x", Value.int 5)]

/-- A concrete RPC state with one open stream `u` whose queue holds one
message, for the C5 witness. -/
def c5St : RPCState := ⟨chanSt0, [], [("u", [c5Msg])], 0⟩

/-- Witness for C5 at a concrete open stream with a queued message. -/
theorem c5_stream_recv_dispatch_witness :
    (StreamHandle.mk "u" false).closed = false ∧
    aget? c5St.incomingByStreamUid (StreamHandle.mk "u" false).uid = some (c5Msg :: []) ∧
    ((aget? c5Msg "kind" = some (Value.str "close") →
      (stream_recv c5St ⟨"u", false⟩).2.2 = RecvOutcome.value none ∧
      (stream_recv c5St ⟨"u", false⟩).2.1.closed = true ∧
      acontains (stream_recv c5St ⟨"u", false⟩).1.incomingByStreamUid
        (StreamHandle.mk "u" false).uid = false) ∧
    (∀ E, aget? c5Msg "kind" = some (Value.str "error") →
      aget? c5Msg "error" = some (Value.str E) →
      (stream_recv c5St ⟨"u", false⟩).2.2 = RecvOutcome.raised (RpcError.exceptionError E) ∧
      (stream_recv c5St ⟨"u", false⟩).2.1.closed = true ∧
      acontains (stream_recv c5St ⟨"u", false⟩).1.incomingByStreamUid
        (StreamHandle.mk "u" false).uid = false) ∧
    (aget? c5Msg "kind" = some (Value.str "error") → hasStrField c5Msg "error" = false →
      (stream_recv c5St ⟨"u", false⟩).2.2 =
        RecvOutcome.raised (RpcError.exceptionError "Stream closed with unspecified error") ∧
      (stream_recv c5St ⟨"u", false⟩).2.1.closed = true ∧
      acontains (stream_recv c5St ⟨"u", false⟩).1.incomingByStreamUid
        (StreamHandle.mk "u" false).uid = false) ∧
    (∀ k, aget? c5Msg "kind" = some (Value.str k) → k ≠ "error" → k ≠ "close" →
      stream_recv c5St ⟨"u", false⟩ =
        ({ c5St with incomingByStreamUid := aset c5St.incomingByStreamUid (StreamHandle.mk "u" false).uid [] },
          ⟨"u", false⟩, RecvOutcome.value (some c5Msg)))) :=
  ⟨rfl, rfl, c5_stream_recv_dispatch c5St ⟨"u", false⟩ c5Msg [] rfl rfl⟩

end PugProtocol
